import Mathlib

/-!
Verification of the MyGAP scraper orchestration layer (main.py, scheduler.py).

The read endpoints, the cache-freshness logic, the record conversion, the
batch scheduler and the status/trigger endpoints are embedded as executable
Lean definitions, translated clause by clause from the Python source.
Timestamps are natural numbers (seconds for file ages, minutes for the
daily-schedule arithmetic), and fallible Python code is modelled with
Option / Except values.
-/

namespace ScrapMygap

/-- A parsed JSON value, as produced by Python's json.load: a list, a dict
(association list of string keys; duplicate keys resolve to the last
occurrence, as in json.loads), a string, a number, or null. -/
inductive Json where
  | arr (xs : List Json)
  | obj (fs : List (String × Json))
  | str (s : String)
  | num (n : Int)
  | null

/-- A Python dict of JSON values (one raw scraped record, or one JSON object). -/
abbrev Obj := List (String × Json)

/-- Python dict lookup on an association list: the LAST binding of the key
wins, matching both dict insertion semantics and json.loads duplicate-key
handling. -/
def dictFind (d : Obj) (k : String) : Option Json :=
  match d with
  | [] => none
  | kv :: rest =>
      match dictFind rest k with
      | some v => some v
      | none => if kv.1 = k then some kv.2 else none

/-- The shape selection of the cache loader (main.py lines 241-246):
a list is taken as-is; a dict containing a data key yields that key's
value; anything else is taken as-is. -/
def loadShape : Json → Json
  | .arr xs => .arr xs
  | .obj fs =>
      match dictFind fs "data" with
      | some v => v
      | none => .obj fs
  | j => j

/-- Python truthiness of a JSON value (empty containers, empty strings,
zero and None are falsy). -/
def truthy : Json → Bool
  | .arr xs => !xs.isEmpty
  | .obj fs => !fs.isEmpty
  | .str s => !s.isEmpty
  | .num n => n != 0
  | .null => false

/-- Whether Python len() is defined on the value (lists, dicts and strings
have a length; numbers and None raise TypeError). -/
def hasLen : Json → Bool
  | .arr _ => true
  | .obj _ => true
  | .str _ => true
  | .num _ => false
  | .null => false

/-- Whether the value is JSON null (Python None). -/
def isNull : Json → Bool
  | .null => true
  | _ => false

/-- The inner try block of the read endpoints (main.py lines 238-250):
json.load the file (none = open or parse raised), select the shape, then
log with len(raw_data) if raw_data else 0. Any exception inside the block
resets raw_data to None; a loaded JSON null IS None. So the result is none
when the parse raised, when the loaded value is null, or when the value is
truthy but has no len (a nonzero number); otherwise the loaded value. -/
def cacheLoad (parsed : Option Json) : Option Json :=
  match parsed with
  | none => none
  | some j =>
      let r := loadShape j
      if truthy r && !hasLen r then none
      else if isNull r then none
      else some r

/-- A persisted snapshot file for one source: its storage modification time
(seconds) and its parsed content (none = reading or JSON-parsing it raises). -/
structure CacheFile where
  mtime : Nat
  parsed : Option Json

/-- The declared model fields of TBMRecord (main.py lines 55-67). -/
def tbmModelFields : List String :=
  ["no_pensijilan", "kategori_pemohon", "nama", "negeri", "daerah",
   "jenis_tanaman", "kategori_komoditi", "kategori_tanaman", "luas_ladang",
   "tahun_pensijilan", "tarikh_pensijilan", "tempoh_sah_laku"]

/-- The declared model fields of AMRecord (main.py lines 83-96): the TBM
fields with the AM-specific bil_haif inserted before luas_ladang. -/
def amModelFields : List String :=
  ["no_pensijilan", "kategori_pemohon", "nama", "negeri", "daerah",
   "jenis_tanaman", "kategori_komoditi", "kategori_tanaman", "bil_haif",
   "luas_ladang", "tahun_pensijilan", "tarikh_pensijilan", "tempoh_sah_laku"]

/-- The declared model fields of PFRecord (main.py lines 69-81), identical
to the TBM field list. -/
def pfModelFields : List String := tbmModelFields

/-- The declared model fields of OrganicRecord (main.py lines 98-110). -/
def organicModelFields : List String := tbmModelFields

/-- The declared model fields of TanamanRecord (main.py lines 112-124). -/
def tanamanModelFields : List String := tbmModelFields

/-- One converted response record (main.py lines 269-273): the dict
comprehension keeps only keys of the declared field list, and pydantic
construction gives every declared field its keyword value, defaulting to
None. Represented canonically as the declared fields in order, each paired
with its value (Json.null for an absent field). -/
def convertItem (fields : List String) (item : Obj) : Obj :=
  let cleaned := item.filter (fun kv => fields.contains kv.1)
  fields.map (fun f => (f, (dictFind cleaned f).getD Json.null))

/-- A Python exception raised during the conversion loop. -/
inductive PyErr where
  | attributeError
  | typeError
deriving DecidableEq

/-- The conversion loop body over the elements of a list (main.py lines
268-273): each element must be a dict (item.items()); a non-dict element
raises AttributeError, which aborts the loop. -/
def convertList (fields : List String) : List Json → Except PyErr (List Obj)
  | [] => .ok []
  | .obj fs :: xs =>
      match convertList fields xs with
      | .ok rs => .ok (convertItem fields fs :: rs)
      | .error e => .error e
  | _ :: _ => .error .attributeError

/-- The conversion loop applied to the raw data value: iterating a list
converts its elements; iterating a nonempty dict yields its string keys,
which have no items() (AttributeError); iterating a nonempty string yields
one-character strings (AttributeError); numbers and None are not iterable
(TypeError). -/
def convertRecords (fields : List String) : Json → Except PyErr (List Obj)
  | .arr xs => convertList fields xs
  | .obj fs => if fs.isEmpty then .ok [] else .error .attributeError
  | .str s => if s.isEmpty then .ok [] else .error .attributeError
  | .num _ => .error .typeError
  | .null => .error .typeError

/-- The HTTP-level failure of a read endpoint: the explicit 500 raised when
the extract function returns None (main.py lines 262-265), or the catch-all
500 wrapping a Python exception (main.py lines 287-292). -/
inductive HErr where
  | fetchFailed
  | internal (e : PyErr)
deriving DecidableEq

/-- The HTTP status code of a read-endpoint failure: every path raises 500. -/
def statusOf : HErr → Nat
  | .fetchFailed => 500
  | .internal _ => 500

/-- The outcome of one read-endpoint call: the HTTP result (error or the
converted records), and whether the extract function was invoked. -/
structure ReadOutcome where
  result : Except HErr (List Obj)
  fetchInvoked : Bool

/-- The staleness threshold: timedelta(days=1), in seconds. -/
def oneDay : Nat := 86400

/-- The cache-lookup part of a read endpoint (main.py lines 227-252): the
most recent matching file, kept only when its age now - mtime is strictly
below one day, then loaded; none means raw_data is still None and the
fetch path runs. -/
def cachedRaw (now : Nat) (cache : Option CacheFile) : Option Json :=
  match cache with
  | none => none
  | some f => if now - f.mtime < oneDay then cacheLoad f.parsed else none

/-- One read endpoint (main.py lines 212-292 for TBM; the PF, AM, Organic
and Tanaman endpoints are identical up to the field list): serve converted
cached data when the cache produced a value, otherwise invoke the extract
function, raising 500 when it returns None; conversion failures are caught
by the outer handler and re-raised as 500. The cache parameter abstracts
the newest snapshot file for the endpoint's glob pattern, and the fetch
parameter the extract function's return value. -/
def readEndpoint (fields : List String) (now : Nat) (cache : Option CacheFile)
    (fetch : Option (List Obj)) : ReadOutcome :=
  match cachedRaw now cache with
  | some r =>
      match convertRecords fields r with
      | .ok rs => ⟨.ok rs, false⟩
      | .error e => ⟨.error (.internal e), false⟩
  | none =>
      match fetch with
      | none => ⟨.error .fetchFailed, true⟩
      | some items => ⟨.ok (items.map (convertItem fields)), true⟩

/-- The TBM read endpoint get_mygap_data (main.py line 213). -/
def get_mygap_data : Nat → Option CacheFile → Option (List Obj) → ReadOutcome :=
  readEndpoint tbmModelFields

/-- The PF read endpoint get_mygap_pf_data (main.py line 295). -/
def get_mygap_pf_data : Nat → Option CacheFile → Option (List Obj) → ReadOutcome :=
  readEndpoint pfModelFields

/-- The AM read endpoint get_mygap_am_data (main.py line 377). -/
def get_mygap_am_data : Nat → Option CacheFile → Option (List Obj) → ReadOutcome :=
  readEndpoint amModelFields

/-- The Organic read endpoint get_mygap_organic_data (main.py line 459). -/
def get_mygap_organic_data : Nat → Option CacheFile → Option (List Obj) → ReadOutcome :=
  readEndpoint organicModelFields

/-- The Tanaman read endpoint get_mygap_tanaman_data (main.py line 541). -/
def get_mygap_tanaman_data : Nat → Option CacheFile → Option (List Obj) → ReadOutcome :=
  readEndpoint tanamanModelFields

/-- Modelled from the spec: when invoked with persist, the extract function
(excluded collaborator, per the fetch capability contract of spec section 6)
writes the fetched records to storage as a new snapshot file stamped with
the current time; the file content is the plain JSON list of records. -/
def persistFetch (now : Nat) (items : List Obj) : CacheFile :=
  ⟨now, some (Json.arr (items.map Json.obj))⟩

/-- One read-endpoint call together with its effect on the snapshot
storage: when the endpoint invoked the extract function and that function
returned records, a new snapshot file (persistFetch) replaces the old one;
otherwise storage is unchanged. -/
def stepRead (fields : List String) (now : Nat) (cache : Option CacheFile)
    (fetch : Option (List Obj)) : ReadOutcome × Option CacheFile :=
  let o := readEndpoint fields now cache fetch
  if o.fetchInvoked then
    match fetch with
    | some items => (o, some (persistFetch now items))
    | none => (o, cache)
  else (o, cache)

/-! ## The scheduler (scheduler.py) -/

/-- The behaviour of one extract-function call as the scheduler sees it:
it returns a record list, returns None, or raises. -/
inductive FetchBehavior where
  | success (records : List Obj)
  | failure
  | exn

/-- The registered scraper names, in the insertion order of the
scraping_functions dict (scheduler.py lines 37-43). -/
def scraperNames : List String := ["TBM", "PF", "AM", "Organic", "Tanaman"]

/-- run_scraping_job (scheduler.py lines 45-81): run the extract function;
a returned list is a success (True), a returned None is a failure (False),
and any raised exception is caught and is a failure (False). -/
def run_scraping_job : FetchBehavior → Bool
  | .success _ => true
  | .failure => false
  | .exn => false

/-- The fixed delay time.sleep(2) executed after each scraper in the batch
loop (scheduler.py line 99), in seconds. -/
def interScraperDelay : Nat := 2

/-- run_all_scrapers (scheduler.py lines 83-114): iterate the registered
scrapers in order, storing each job's boolean outcome in the results dict,
and sleep the fixed delay after each one; the pair is the results (in
iteration order) and the total batch duration, end minus start, which
includes every job duration and every sleep. The behaviour and duration of
each source's extract call are parameters. -/
def run_all_scrapers (behaviors : String → FetchBehavior) (durations : String → Nat) :
    List (String × Bool) × Nat :=
  scraperNames.foldl
    (fun acc n =>
      (acc.1 ++ [(n, run_scraping_job (behaviors n))], acc.2 + durations n + interScraperDelay))
    ([], 0)

/-- The scheduler's mutable state (scheduler.py lines 34-43 and the
schedule module's job list): the running flag, whether a scheduler thread
object was ever created, whether that thread is currently alive, and the
next-run times (absolute minutes) of the registered schedule jobs. -/
structure SchedulerState where
  running : Bool
  threadExists : Bool
  threadAlive : Bool
  jobs : List Nat

/-- Minutes in a day, the period of schedule.every().day. -/
def minutesPerDay : Nat := 1440

/-- Modelled from the spec: the schedule library's next-run computation for
a daily job registered at time-of-day tod (minutes past midnight) at
absolute minute now — the library is an external dependency, not in the
repository. The base is tomorrow at tod; on first scheduling, when tod is
still ahead of the current time of day, the run is moved back one day to
today at tod. -/
def nextDailyRun (now tod : Nat) : Nat :=
  let base := ((now + minutesPerDay) / minutesPerDay) * minutesPerDay + tod
  if now % minutesPerDay < tod then base - minutesPerDay else base

/-- schedule_daily_scraping (scheduler.py lines 116-124): register one
daily job at the given time-of-day. -/
def schedule_daily_scraping (now tod : Nat) (s : SchedulerState) : SchedulerState :=
  { s with jobs := s.jobs ++ [nextDailyRun now tod] }

/-- start_background_scheduler (scheduler.py lines 148-166): when a
scheduler thread exists and is alive, only warn and return; otherwise
register the daily job and start the background thread, whose loop sets
the running flag (scheduler.py line 138). -/
def start_background_scheduler (now tod : Nat) (s : SchedulerState) : SchedulerState :=
  if s.threadExists && s.threadAlive then s
  else
    let s1 := schedule_daily_scraping now tod s
    { s1 with running := true, threadExists := true, threadAlive := true }

/-- stop_scheduler (scheduler.py lines 168-177): clear the running flag,
and when a thread object exists, clear all scheduled jobs; the thread
itself keeps running until its loop observes the flag. -/
def stop_scheduler (s : SchedulerState) : SchedulerState :=
  { s with running := false, jobs := if s.threadExists then [] else s.jobs }

/-- The background loop's exit (scheduler.py lines 140-146): once the
running flag is false, the while loop ends on its next poll and the thread
dies; with the flag still set the thread stays alive. -/
def schedulerLoopExit (s : SchedulerState) : SchedulerState :=
  if s.running then s else { s with threadAlive := false }

/-- get_next_run_time (scheduler.py lines 179-190): the minimum next-run
time over the registered jobs, or none when no job is registered. -/
def get_next_run_time (s : SchedulerState) : Option Nat :=
  match s.jobs with
  | [] => none
  | t :: ts => some (ts.foldl min t)

/-- The status dict returned by scheduler.get_scheduler_status
(scheduler.py lines 237-248); the next-run value stands for the formatted
time string. -/
structure StatusDict where
  running : Bool
  next_run : Option Nat
  available_scrapers : List String

/-- get_scheduler_status (scheduler.py lines 237-248): the running flag,
the next run time, and the scraping_functions keys. -/
def get_scheduler_status (s : SchedulerState) : StatusDict :=
  ⟨s.running, get_next_run_time s, scraperNames⟩

/-! ## The status endpoint of main.py and its name shadowing -/

/-- The two Python callables that the name get_scheduler_status denotes in
main.py: the plain function imported from scheduler (main.py line 23), and
the async endpoint defined at main.py line 921. -/
inductive PyCallable where
  | schedulerStatus
  | statusEndpoint

/-- The module-level binding of the name get_scheduler_status inside
main.py when the endpoint body runs: the import at line 19 first binds the
scheduler function, but the def at line 921 rebinds the same name to the
endpoint itself, and the def runs later. -/
def mainStatusBinding : PyCallable := PyCallable.statusEndpoint

/-- A Python value produced by calling a callable without awaiting it. -/
inductive PyValue where
  | dict (d : StatusDict)
  | coroutine

/-- Calling the callable without await: the plain scheduler function
returns its status dict; calling an async def merely creates a coroutine
object. -/
def callNoAwait (s : SchedulerState) : PyCallable → PyValue
  | .schedulerStatus => .dict (get_scheduler_status s)
  | .statusEndpoint => .coroutine

/-- The subscript accesses of main.py lines 935-937 on the call's result:
on a dict they succeed and rebuild the status; subscripting a coroutine
object raises TypeError. -/
def pyGetStatus : PyValue → Except PyErr StatusDict
  | .dict d => .ok d
  | .coroutine => .error .typeError

/-- The status endpoint of main.py (lines 920-944): call whatever the name
get_scheduler_status denotes at run time, subscript the result, and wrap
any exception into an HTTP 500 internal error. -/
def get_scheduler_status_endpoint (s : SchedulerState) : Except HErr StatusDict :=
  match pyGetStatus (callNoAwait s mainStatusBinding) with
  | .ok d => .ok d
  | .error e => .error (.internal e)

/-! ## Manual single-source trigger -/

/-- The valid scraper names checked by the trigger endpoint
(main.py line 992). -/
def valid_scrapers : List String := ["TBM", "PF", "AM", "Organic", "Tanaman"]

/-- The outcome of one call of the single-scraper trigger endpoint: its
HTTP status, whether a background thread was spawned, and whether any
extract function is invoked on behalf of the request. -/
structure TriggerOutcome where
  httpStatus : Nat
  threadSpawned : Bool
  fetchInvoked : Bool
deriving DecidableEq

/-- run_single_scraper_endpoint (main.py lines 979-1023): an unknown name
is rejected with HTTP 400 before the thread is created, so nothing runs in
the background and no extract function is called; a valid name spawns the
background thread, which runs the scraper (and hence its extract call),
and the endpoint acknowledges with HTTP 200. -/
def run_single_scraper_endpoint (name : String) : TriggerOutcome :=
  if name ∈ valid_scrapers then ⟨200, true, true⟩
  else ⟨400, false, false⟩

/-- ScrapingScheduler.run_single_scraper (scheduler.py lines 192-206): an
unknown name returns False without running anything; a known name runs the
scraping job on that source's extract behaviour. -/
def run_single_scraper (name : String) (b : String → FetchBehavior) : Bool :=
  if name ∈ scraperNames then run_scraping_job (b name)
  else false

/-! ## Helper lemmas -/

theorem cacheLoad_arr (xs : List Json) : cacheLoad (some (Json.arr xs)) = some (Json.arr xs) := by
  simp [cacheLoad, loadShape, truthy, hasLen, isNull]

theorem convertList_map_obj (fields : List String) (objs : List Obj) :
    convertList fields (objs.map Json.obj) = .ok (objs.map (convertItem fields)) := by
  induction objs with
  | nil => rfl
  | cons o os ih => simp [convertList, ih]

theorem dictFind_cons (kv : String × Json) (rest : Obj) (k : String) :
    dictFind (kv :: rest) k =
      match dictFind rest k with
      | some v => some v
      | none => if kv.1 = k then some kv.2 else none := rfl

theorem dictFind_map_self_of_not_mem (g : String → Json) (l : List String) (k : String)
    (h : k ∉ l) : dictFind (l.map (fun x => (x, g x))) k = none := by
  induction l with
  | nil => rfl
  | cons x xs ih =>
      have hx : k ≠ x := fun he => h (by simp [he])
      have hxs : k ∉ xs := fun he => h (by simp [he])
      rw [List.map_cons, dictFind_cons, ih hxs]
      simp [Ne.symm hx]

theorem dictFind_map_self_of_mem (g : String → Json) (l : List String) (k : String)
    (h : k ∈ l) : dictFind (l.map (fun x => (x, g x))) k = some (g k) := by
  induction l with
  | nil => cases h
  | cons x xs ih =>
      by_cases hxs : k ∈ xs
      · rw [List.map_cons, dictFind_cons, ih hxs]
      · have hk : k = x := by
          rcases List.mem_cons.mp h with h1 | h2
          · exact h1
          · exact absurd h2 hxs
        subst hk
        rw [List.map_cons, dictFind_cons, dictFind_map_self_of_not_mem g xs k hxs]
        simp

theorem dictFind_filter_keys (item : Obj) (fields : List String) (k : String)
    (hk : fields.contains k = true) :
    dictFind (item.filter (fun kv => fields.contains kv.1)) k = dictFind item k := by
  induction item with
  | nil => rfl
  | cons kv rest ih =>
      rw [List.filter_cons]
      by_cases hkv : fields.contains kv.1 = true
      · rw [if_pos hkv, dictFind_cons, dictFind_cons, ih]
      · have hne : kv.1 ≠ k := fun he => hkv (he ▸ hk)
        rw [if_neg hkv, ih, dictFind_cons]
        cases hd : dictFind rest k <;> simp [hd, hne]

theorem map_fst_map_pair (g : String → Json) (l : List String) :
    (l.map (fun x => (x, g x))).map Prod.fst = l := by
  induction l with
  | nil => rfl
  | cons x xs ih => simp [ih]

theorem cachedRaw_none_of_fetchInvoked (fields : List String) (now : Nat)
    (cache : Option CacheFile) (fetch : Option (List Obj))
    (h : (readEndpoint fields now cache fetch).fetchInvoked = true) :
    cachedRaw now cache = none := by
  cases hc : cachedRaw now cache with
  | none => rfl
  | some r =>
      exfalso
      cases hcv : convertRecords fields r with
      | ok rs => simp [readEndpoint, hc, hcv] at h
      | error e => simp [readEndpoint, hc, hcv] at h

theorem nextDailyRun_lt (now tod : Nat) (h : tod < minutesPerDay) :
    now < nextDailyRun now tod ∧ nextDailyRun now tod % minutesPerDay = tod := by
  simp only [nextDailyRun, minutesPerDay] at h ⊢
  split <;> omega

/-! ## Claim theorems -/

/-- C1: when the cached snapshot is absent or at least one day old and the
extract function returns None, the read endpoint raises the fetch-failure
error with HTTP status 500 and does not return the stale cached records. -/
theorem stale_fetch_failure_raises (fields : List String) (now : Nat)
    (cache : Option CacheFile)
    (h : cache = none ∨ ∃ f, cache = some f ∧ oneDay ≤ now - f.mtime) :
    readEndpoint fields now cache none = ⟨.error .fetchFailed, true⟩ ∧
      statusOf .fetchFailed = 500 := by
  constructor
  · rcases h with rfl | ⟨f, rfl, hf⟩
    · rfl
    · have hns : ¬ (now - f.mtime < oneDay) := Nat.not_lt.mpr hf
      simp [readEndpoint, cachedRaw, hns]
  · rfl

theorem stale_fetch_failure_raises_witness :
    readEndpoint tbmModelFields 200000
        (some ⟨0, some (Json.arr [Json.obj [("nama", Json.str "old")]])⟩) none =
      ⟨.error .fetchFailed, true⟩ ∧ statusOf .fetchFailed = 500 :=
  stale_fetch_failure_raises tbmModelFields 200000
    (some ⟨0, some (Json.arr [Json.obj [("nama", Json.str "old")]])⟩)
    (Or.inr ⟨⟨0, some (Json.arr [Json.obj [("nama", Json.str "old")]])⟩, rfl, by decide⟩)

/-- C2: when the cached snapshot file is strictly younger than one day and
its content loads and converts successfully, the read endpoint returns the
cached records and the extract function is not invoked. -/
theorem fresh_cache_hit (fields : List String) (now : Nat) (f : CacheFile)
    (raw : Json) (rs : List Obj) (fetch : Option (List Obj))
    (hfresh : now - f.mtime < oneDay)
    (hload : cacheLoad f.parsed = some raw)
    (hconv : convertRecords fields raw = .ok rs) :
    readEndpoint fields now (some f) fetch = ⟨.ok rs, false⟩ := by
  simp [readEndpoint, cachedRaw, hfresh, hload, hconv]

theorem fresh_cache_hit_witness :
    readEndpoint tbmModelFields 7200
        (some ⟨0, some (Json.arr [Json.obj [("nama", Json.str "Ali")]])⟩) none =
      ⟨.ok [convertItem tbmModelFields [("nama", Json.str "Ali")]], false⟩ :=
  fresh_cache_hit tbmModelFields 7200
    ⟨0, some (Json.arr [Json.obj [("nama", Json.str "Ali")]])⟩
    (Json.arr [Json.obj [("nama", Json.str "Ali")]])
    [convertItem tbmModelFields [("nama", Json.str "Ali")]] none
    (by decide) rfl rfl

/-- C3: a full batch over the five registered sources, with any assignment
of successes, failures and raised exceptions to the sources, records
exactly one boolean result for every registered source, in registry order,
with no early termination. -/
theorem batch_results_complete (b : String → FetchBehavior) (d : String → Nat) :
    ((run_all_scrapers b d).1).map Prod.fst = scraperNames ∧
      (run_all_scrapers b d).1.length = 5 ∧
      ∀ n ∈ scraperNames, (((run_all_scrapers b d).1).map Prod.fst).count n = 1 := by
  have hres : (run_all_scrapers b d).1 =
      [("TBM", run_scraping_job (b "TBM")), ("PF", run_scraping_job (b "PF")),
       ("AM", run_scraping_job (b "AM")), ("Organic", run_scraping_job (b "Organic")),
       ("Tanaman", run_scraping_job (b "Tanaman"))] := rfl
  refine ⟨by rw [hres]; rfl, by rw [hres]; rfl, ?_⟩
  intro n hn
  rw [hres]
  fin_cases hn <;> rfl

theorem batch_results_complete_witness :
    (((run_all_scrapers (fun _ => FetchBehavior.exn) (fun _ => 0)).1).map Prod.fst
        = scraperNames) ∧
      (run_all_scrapers (fun _ => FetchBehavior.exn) (fun _ => 0)).1.length = 5 ∧
      ∀ n ∈ scraperNames,
        (((run_all_scrapers (fun _ => FetchBehavior.exn) (fun _ => 0)).1).map Prod.fst).count n
          = 1 :=
  batch_results_complete (fun _ => FetchBehavior.exn) (fun _ => 0)

/-- C4 (code bug evaluation): the status endpoint of main.py fails with an
HTTP 500 internal error on every call, because its internal call to the
name get_scheduler_status resolves to the endpoint itself and subscripting
the resulting coroutine raises TypeError; the scheduler-level
get_scheduler_status by itself does yield the running flag, the next run
time and the registered source list. -/
theorem status_endpoint_always_500 (s : SchedulerState) :
    get_scheduler_status_endpoint s = .error (.internal .typeError) ∧
      statusOf (.internal .typeError) = 500 ∧
      get_scheduler_status s = ⟨s.running, get_next_run_time s, scraperNames⟩ :=
  ⟨rfl, rfl, rfl⟩

/-- C5: after stop_scheduler, once the background loop has exited, a later
start_background_scheduler at absolute minute now with a valid time-of-day
yields a next-run query result that is strictly in the future and falls on
the configured time-of-day. -/
theorem stop_start_future_run (s : SchedulerState) (now tod : Nat)
    (hex : s.threadExists = true) (htod : tod < minutesPerDay) :
    ∃ t, get_next_run_time
        (start_background_scheduler now tod (schedulerLoopExit (stop_scheduler s)))
          = some t ∧
      now < t ∧ t % minutesPerDay = tod := by
  refine ⟨nextDailyRun now tod, ?_, (nextDailyRun_lt now tod htod).1,
    (nextDailyRun_lt now tod htod).2⟩
  simp [stop_scheduler, schedulerLoopExit, start_background_scheduler,
    schedule_daily_scraping, get_next_run_time, hex]

theorem stop_start_future_run_witness :
    ∃ t, get_next_run_time
        (start_background_scheduler 10000 30
          (schedulerLoopExit (stop_scheduler ⟨true, true, true, [9000]⟩)))
          = some t ∧
      10000 < t ∧ t % minutesPerDay = 30 :=
  stop_start_future_run ⟨true, true, true, [9000]⟩ 10000 30 rfl (by decide)

/-- C6 (counterexample): with every per-source duration zero, the batch
duration is 10 seconds (five sleeps of the inter-scraper delay, one after
every source including the last), not the 4 times the delay the claim
states, because time.sleep(2) runs on every loop iteration. -/
theorem batch_delay_after_last :
    (run_all_scrapers (fun _ => FetchBehavior.failure) (fun _ => 0)).2 ≠
      (scraperNames.map (fun _ => (0 : Nat))).sum + 4 * interScraperDelay := by
  decide

/-- C6 (amended): the inter-scraper delay runs after every source,
including the last, so the batch duration is the sum of the per-source
durations plus five (the number of registered sources) times the delay. -/
theorem batch_duration_total (b : String → FetchBehavior) (d : String → Nat) :
    (run_all_scrapers b d).2 =
      (scraperNames.map d).sum + scraperNames.length * interScraperDelay := by
  simp [run_all_scrapers, scraperNames, interScraperDelay]
  omega

/-- C7: a name outside the fixed scraper registry is rejected by the
single-scraper trigger endpoint with HTTP 400, no background thread is
spawned and no extract function is invoked. -/
theorem invalid_scraper_rejected (name : String) (h : name ∉ valid_scrapers) :
    run_single_scraper_endpoint name = ⟨400, false, false⟩ := by
  simp [run_single_scraper_endpoint, h]

theorem invalid_scraper_rejected_witness :
    run_single_scraper_endpoint "XYZ" = ⟨400, false, false⟩ :=
  invalid_scraper_rejected "XYZ" (by decide)

/-- C8 (counterexample): a fresh cache file whose content parses to a JSON
object without a data key is NOT treated as a cache miss: the extract
function is not invoked (fetchInvoked is false) and the request fails with
an HTTP 500 internal error, while with an absent cache the same fetch
input would have produced the fetched records. -/
theorem unexpected_shape_not_cache_miss :
    readEndpoint tbmModelFields 0
        (some ⟨0, some (Json.obj [("foo", Json.str "bar")])⟩)
        (some [[("nama", Json.str "x")]]) =
      ⟨.error (.internal .attributeError), false⟩ ∧
    readEndpoint tbmModelFields 0 none (some [[("nama", Json.str "x")]]) =
      ⟨.ok [convertItem tbmModelFields [("nama", Json.str "x")]], true⟩ :=
  ⟨rfl, rfl⟩

/-- C8 (amended): a cache file whose read or JSON parse raises is treated
identically to an absent cache — the read degrades to the fetch path with
the same outcome. -/
theorem parse_failure_is_cache_miss (fields : List String) (now m : Nat)
    (fetch : Option (List Obj)) :
    readEndpoint fields now (some ⟨m, none⟩) fetch = readEndpoint fields now none fetch := by
  simp [readEndpoint, cachedRaw, cacheLoad]

/-- C9: when a first read at time t0 goes to the fetch path and the fetch
succeeds, a second read at any time t1 within the one-day window returns
the identical result (the same record sequence read back from the snapshot
persisted at t0, whose captured-at time is t0), performs no fetch, and
leaves the snapshot storage unchanged. -/
theorem second_read_within_window (fields : List String) (t0 t1 : Nat)
    (c0 : Option CacheFile) (items : List Obj) (f2 : Option (List Obj))
    (hmiss : (readEndpoint fields t0 c0 (some items)).fetchInvoked = true)
    (hwin : t1 - t0 < oneDay) :
    (stepRead fields t0 c0 (some items)).1.result = .ok (items.map (convertItem fields)) ∧
    (stepRead fields t0 c0 (some items)).2 = some (persistFetch t0 items) ∧
    (stepRead fields t1 (stepRead fields t0 c0 (some items)).2 f2).1.result =
      (stepRead fields t0 c0 (some items)).1.result ∧
    (stepRead fields t1 (stepRead fields t0 c0 (some items)).2 f2).1.fetchInvoked = false ∧
    (stepRead fields t1 (stepRead fields t0 c0 (some items)).2 f2).2 =
      (stepRead fields t0 c0 (some items)).2 := by
  have hc0 := cachedRaw_none_of_fetchInvoked fields t0 c0 (some items) hmiss
  have h1 : readEndpoint fields t0 c0 (some items) =
      ⟨.ok (items.map (convertItem fields)), true⟩ := by
    simp [readEndpoint, hc0]
  have hs1 : stepRead fields t0 c0 (some items) =
      (⟨.ok (items.map (convertItem fields)), true⟩, some (persistFetch t0 items)) := by
    simp [stepRead, h1]
  have hcr : cachedRaw t1 (some (persistFetch t0 items)) =
      some (Json.arr (items.map Json.obj)) := by
    simp [cachedRaw, persistFetch, hwin, cacheLoad_arr]
  have h2 : readEndpoint fields t1 (some (persistFetch t0 items)) f2 =
      ⟨.ok (items.map (convertItem fields)), false⟩ := by
    simp [readEndpoint, hcr, convertRecords, convertList_map_obj]
  have hs2 : stepRead fields t1 (some (persistFetch t0 items)) f2 =
      (⟨.ok (items.map (convertItem fields)), false⟩, some (persistFetch t0 items)) := by
    simp [stepRead, h2]
  rw [hs1, hs2]
  exact ⟨rfl, rfl, rfl, rfl, rfl⟩

theorem second_read_within_window_witness :
    (stepRead tbmModelFields 0 none (some [[("nama", Json.str "Ali")]])).1.result =
      .ok ([[("nama", Json.str "Ali")]].map (convertItem tbmModelFields)) ∧
    (stepRead tbmModelFields 0 none (some [[("nama", Json.str "Ali")]])).2 =
      some (persistFetch 0 [[("nama", Json.str "Ali")]]) ∧
    (stepRead tbmModelFields 100
        (stepRead tbmModelFields 0 none (some [[("nama", Json.str "Ali")]])).2 none).1.result =
      (stepRead tbmModelFields 0 none (some [[("nama", Json.str "Ali")]])).1.result ∧
    (stepRead tbmModelFields 100
        (stepRead tbmModelFields 0 none (some [[("nama", Json.str "Ali")]])).2 none).1.fetchInvoked
      = false ∧
    (stepRead tbmModelFields 100
        (stepRead tbmModelFields 0 none (some [[("nama", Json.str "Ali")]])).2 none).2 =
      (stepRead tbmModelFields 0 none (some [[("nama", Json.str "Ali")]])).2 :=
  second_read_within_window tbmModelFields 0 100 none [[("nama", Json.str "Ali")]] none
    rfl (by decide)

/-- C10: every converted response record carries exactly the declared
field list, in order; a declared field present in the raw item keeps the
raw value, a declared field absent from the raw item is present with a
null value, and any raw key outside the declared fields is dropped. -/
theorem record_schema_exact (fields : List String) (item : Obj) :
    (convertItem fields item).map Prod.fst = fields ∧
    (∀ f ∈ fields,
      dictFind (convertItem fields item) f = some ((dictFind item f).getD Json.null)) ∧
    (∀ k, k ∉ fields → dictFind (convertItem fields item) k = none) := by
  refine ⟨?_, ?_, ?_⟩
  · simp only [convertItem]
    exact map_fst_map_pair _ _
  · intro f hf
    have hc : fields.contains f = true := List.elem_eq_true_of_mem hf
    simp only [convertItem]
    rw [dictFind_map_self_of_mem _ _ _ hf, dictFind_filter_keys _ _ _ hc]
  · intro k hk
    simp only [convertItem]
    rw [dictFind_map_self_of_not_mem _ _ _ hk]

theorem record_schema_exact_witness :
    ((convertItem tbmModelFields [("nama", Json.str "Ali"), ("extra", Json.str "x")]).map
        Prod.fst = tbmModelFields) ∧
    (∀ f ∈ tbmModelFields,
      dictFind (convertItem tbmModelFields [("nama", Json.str "Ali"), ("extra", Json.str "x")]) f
        = some ((dictFind [("nama", Json.str "Ali"), ("extra", Json.str "x")] f).getD
            Json.null)) ∧
    (∀ k, k ∉ tbmModelFields →
      dictFind (convertItem tbmModelFields [("nama", Json.str "Ali"), ("extra", Json.str "x")]) k
        = none) :=
  record_schema_exact tbmModelFields [("nama", Json.str "Ali"), ("extra", Json.str "x")]

end ScrapMygap
